import Mathlib

/-!
Shallow embedding of the Android RMS backend (src/main.py) and proofs of the
specification's claims about it.

Modelling conventions:
* The SQLite store is a `DB` structure of row lists, one per table, together
  with the `AUTOINCREMENT` counters of the integer primary keys.
* Timestamps are UTC instants modelled as rationals (seconds); `now_utc()`
  and `datetime.now(timezone.utc)` become explicit `now : ℚ` parameters.
* The `last_seen` DATETIME column stores text; `get_devices` parses it with
  `strptime`.  The column is modelled by the parse result: `some t` when the
  text parses to the instant `t`, `none` when `strptime` raises `ValueError`.
* `command_data` is TEXT holding `json.dumps` of a structured payload and is
  read back with `json.loads`, which inverts `json.dumps`; the column is
  modelled by the structured `Json` value itself.
* Each endpoint is a function from the store (and its request data and the
  current time) to the new store and its response.  `get_pending_commands`
  executes two separate SQL statements, a SELECT and an UPDATE; they are
  embedded as `select_pending` and `mark_sent` and the endpoint is their
  composition, so that interleavings of concurrent requests can be expressed.
-/

namespace RMS

/-- `ONLINE_THRESHOLD_SECONDS` from src/main.py. -/
def ONLINE_THRESHOLD_SECONDS : ℚ := 20

/-- Structured (JSON-like) command payload, as held by the `command_data`
TEXT column via `json.dumps`/`json.loads`. -/
inductive Json where
  | null : Json
  | bool (b : Bool) : Json
  | num (q : ℚ) : Json
  | str (s : String) : Json
  | arr (elems : List Json) : Json
  | obj (fields : List (String × Json)) : Json

/-- The values the repository ever writes into the `status` TEXT column of
`commands` (schema default `pending`). -/
inductive CommandStatus where
  | pending : CommandStatus
  | sent : CommandStatus
  | executed : CommandStatus
deriving DecidableEq, Repr

/-- A row of the `devices` table. -/
structure DeviceRow where
  id : Nat
  device_id : String
  device_name : Option String
  os_version : Option String
  phone_number : Option String
  battery_level : Option Int
  last_seen : Option ℚ
  created_at : ℚ
deriving DecidableEq, Repr

/-- A row of the `commands` table. -/
structure CommandRow where
  id : Nat
  device_id : String
  command_type : String
  command_data : Json
  status : CommandStatus
  created_at : ℚ

/-- A row of the `sms_logs` table. -/
structure SmsRow where
  id : Nat
  device_id : String
  sender : String
  message_body : String
  received_at : ℚ
deriving DecidableEq, Repr

/-- A row of the `form_submissions` table. -/
structure FormRow where
  id : Nat
  device_id : String
  custom_data : String
  submitted_at : ℚ
deriving DecidableEq, Repr

/-- The whole SQLite store: the five tables created by `init_db` plus the
`AUTOINCREMENT` state of each integer primary key. -/
structure DB where
  devices : List DeviceRow
  commands : List CommandRow
  sms_logs : List SmsRow
  form_submissions : List FormRow
  global_settings : List (String × String)
  nextDeviceId : Nat
  nextCommandId : Nat
  nextSmsId : Nat
  nextFormId : Nat

/-- A freshly created database file: all tables empty, `AUTOINCREMENT`
starting at 1. -/
def emptyDB : DB :=
  { devices := [], commands := [], sms_logs := [], form_submissions := [],
    global_settings := [], nextDeviceId := 1, nextCommandId := 1,
    nextSmsId := 1, nextFormId := 1 }

/-- The demo device row inserted by `init_db` (src/main.py lines 83-100). -/
def demo_device (current_time : ℚ) (row_id : Nat) : DeviceRow :=
  { id := row_id, device_id := "demo-device-12345",
    device_name := some "Test Device (Demo)", os_version := some "Android 14",
    phone_number := some "+919999999999", battery_level := some 95,
    last_seen := some current_time, created_at := current_time }

/-- `init_db` (src/main.py): the CREATE TABLE IF NOT EXISTS statements leave
the store as is; then, when `SELECT COUNT(*) FROM devices` returns 0, the
demo device is inserted with `last_seen = created_at = now_utc()`. -/
def init_db (db : DB) (current_time : ℚ) : DB :=
  if db.devices.length = 0 then
    { db with
      devices := db.devices ++ [demo_device current_time db.nextDeviceId],
      nextDeviceId := db.nextDeviceId + 1 }
  else db

/-- Request body of `POST /api/device/register` (`DeviceRegisterRequest`). -/
structure DeviceRegisterRequest where
  device_id : String
  device_name : Option String
  os_version : Option String
  phone_number : Option String
  battery_level : Option Int
deriving DecidableEq, Repr

/-- `register_device` (src/main.py, Feature 1): look the device up by
`device_id`; when found, `UPDATE devices SET last_seen = now`; otherwise
INSERT a new row carrying the request's metadata with
`last_seen = created_at = now`. -/
def register_device (db : DB) (data : DeviceRegisterRequest) (now : ℚ) : DB :=
  if db.devices.any (fun d => d.device_id == data.device_id) then
    { db with devices := db.devices.map (fun d =>
        if d.device_id = data.device_id then { d with last_seen := some now } else d) }
  else
    { db with
      devices := db.devices ++
        [{ id := db.nextDeviceId, device_id := data.device_id,
           device_name := data.device_name, os_version := data.os_version,
           phone_number := data.phone_number, battery_level := data.battery_level,
           last_seen := some now, created_at := now }],
      nextDeviceId := db.nextDeviceId + 1 }

/-- One element of the response of `GET /api/devices` (`DeviceResponse`). -/
structure DeviceResponse where
  device_id : String
  device_name : Option String
  os_version : Option String
  phone_number : Option String
  battery_level : Option Int
  is_online : Bool
  created_at : ℚ
deriving DecidableEq, Repr

/-- The `last_seen_dt` value computed inside the loop of `get_devices`:
the parsed timestamp, or `current_time - (threshold + 1)` when `strptime`
raised `ValueError`. -/
def last_seen_dt (ls : Option ℚ) (current_time : ℚ) : ℚ :=
  match ls with
  | some t => t
  | none => current_time - (ONLINE_THRESHOLD_SECONDS + 1)

/-- The per-device liveness verdict of `get_devices`:
`(current_time - last_seen_dt).total_seconds() < ONLINE_THRESHOLD_SECONDS`. -/
def is_online (ls : Option ℚ) (current_time : ℚ) : Bool :=
  current_time - last_seen_dt ls current_time < ONLINE_THRESHOLD_SECONDS

/-- The comparison `ORDER BY created_at ASC` sorts with: embedded as a
decidable relation for the stable sort modelling the SQL ORDER BY. -/
def createdLE (a b : DeviceRow) : Prop := a.created_at ≤ b.created_at

instance : DecidableRel createdLE := fun a b =>
  inferInstanceAs (Decidable (a.created_at ≤ b.created_at))

/-- `get_devices` (src/main.py, Feature 2): `SELECT * FROM devices ORDER BY
created_at ASC`, then for each row compute `is_online` against the one
`current_time` captured before the loop. -/
def get_devices (db : DB) (current_time : ℚ) : List DeviceResponse :=
  (db.devices.insertionSort createdLE).map (fun d =>
    { device_id := d.device_id, device_name := d.device_name,
      os_version := d.os_version, phone_number := d.phone_number,
      battery_level := d.battery_level,
      is_online := is_online d.last_seen current_time,
      created_at := d.created_at })

/-- Request body of `POST /api/command/send` (`SendCommandRequest`). -/
structure SendCommandRequest where
  device_id : String
  command_type : String
  command_data : Json

/-- `send_command` (src/main.py, Feature 6): INSERT a new command row; the
schema supplies `status = 'pending'` and `created_at = CURRENT_TIMESTAMP`. -/
def send_command (db : DB) (data : SendCommandRequest) (now : ℚ) : DB :=
  { db with
    commands := db.commands ++
      [{ id := db.nextCommandId, device_id := data.device_id,
         command_type := data.command_type, command_data := data.command_data,
         status := CommandStatus.pending, created_at := now }],
    nextCommandId := db.nextCommandId + 1 }

/-- One element of the response of `GET /api/device/{device_id}/commands`. -/
structure DeliveredCommand where
  id : Nat
  command_type : String
  command_data : Json

/-- The SELECT statement of `get_pending_commands`:
`SELECT ... FROM commands WHERE device_id = ? AND status = 'pending'`. -/
def select_pending (db : DB) (device_id : String) : List CommandRow :=
  db.commands.filter (fun c =>
    decide (c.device_id = device_id ∧ c.status = CommandStatus.pending))

/-- The UPDATE statement of `get_pending_commands`:
`UPDATE commands SET status = 'sent' WHERE id IN (...)` over the captured
identifiers (sent as text, coerced back by the INTEGER column's affinity). -/
def mark_sent (db : DB) (command_ids : List Nat) : DB :=
  { db with commands := db.commands.map (fun c =>
      if c.id ∈ command_ids then { c with status := CommandStatus.sent } else c) }

/-- `get_pending_commands` (src/main.py, Feature 9): run the SELECT, build
the response list (`command_data` deserialized by `json.loads`) and the list
of captured ids, and when that list is nonempty run the UPDATE. -/
def get_pending_commands (db : DB) (device_id : String) :
    List DeliveredCommand × DB :=
  let commands := select_pending db device_id
  let command_list := commands.map (fun c =>
    { id := c.id, command_type := c.command_type,
      command_data := c.command_data : DeliveredCommand })
  let command_ids := commands.map (fun c => c.id)
  if command_ids = [] then (command_list, db)
  else (command_list, mark_sent db command_ids)

/-- Outcome an endpoint reports: HTTP success, or an `HTTPException` 404. -/
inductive ApiStatus where
  | success : ApiStatus
  | notFound : ApiStatus
deriving DecidableEq, Repr

/-- `mark_command_executed` (src/main.py, Feature 10):
`UPDATE commands SET status = 'executed' WHERE id = ?` and report success
(the row count is never inspected). -/
def mark_command_executed (db : DB) (command_id : Nat) : ApiStatus × DB :=
  (ApiStatus.success,
   { db with commands := db.commands.map (fun c =>
       if c.id = command_id then { c with status := CommandStatus.executed } else c) })

/-- `delete_device` (src/main.py, Feature 11): when
`SELECT COUNT(*) FROM devices WHERE device_id = ?` returns 0, raise a 404
before any write; otherwise DELETE the matching rows from `devices`,
`sms_logs`, `form_submissions` and `commands`. -/
def delete_device (db : DB) (device_id : String) : ApiStatus × DB :=
  if db.devices.countP (fun d => d.device_id == device_id) = 0 then
    (ApiStatus.notFound, db)
  else
    (ApiStatus.success,
     { db with
       devices := db.devices.filter (fun d => !(d.device_id == device_id)),
       sms_logs := db.sms_logs.filter (fun r => !(r.device_id == device_id)),
       form_submissions :=
         db.form_submissions.filter (fun r => !(r.device_id == device_id)),
       commands := db.commands.filter (fun c => !(c.device_id == device_id)) })

/-- One dispatcher operation, as the spec's command lifecycle names them. -/
inductive DispatchOp where
  | enqueue (data : SendCommandRequest) (now : ℚ) : DispatchOp
  | deliver (device_id : String) : DispatchOp
  | confirm (command_id : Nat) : DispatchOp

/-- The store after one dispatcher operation. -/
def apply_op (db : DB) (op : DispatchOp) : DB :=
  match op with
  | DispatchOp.enqueue data now => send_command db data now
  | DispatchOp.deliver device_id => (get_pending_commands db device_id).2
  | DispatchOp.confirm command_id => (mark_command_executed db command_id).2

/-- The store after a sequence of dispatcher operations, applied one at a
time. -/
def apply_ops (db : DB) (ops : List DispatchOp) : DB :=
  ops.foldl apply_op db

/-- Position of a status in the lifecycle ordering
`pending < sent < executed`. -/
def statusRank : CommandStatus → Nat
  | CommandStatus.pending => 0
  | CommandStatus.sent => 1
  | CommandStatus.executed => 2

/-- The integrity the `id INTEGER PRIMARY KEY AUTOINCREMENT` column of
`commands` guarantees: ids are pairwise distinct and below the counter. -/
def CmdIdsWf (db : DB) : Prop :=
  db.commands.Pairwise (fun a b => a.id ≠ b.id) ∧
  ∀ c ∈ db.commands, c.id < db.nextCommandId


lemma mem_devices_of_mem_sorted {db : DB} {d : DeviceRow}
    (h : d ∈ db.devices.insertionSort createdLE) : d ∈ db.devices :=
  (List.perm_insertionSort createdLE db.devices).mem_iff.mp h

lemma mem_sorted_of_mem_devices {db : DB} {d : DeviceRow}
    (h : d ∈ db.devices) : d ∈ db.devices.insertionSort createdLE :=
  (List.perm_insertionSort createdLE db.devices).mem_iff.mpr h

/-- C3: for every device in the listing, `is_online` is true iff
`now - last_seen < ONLINE_THRESHOLD_SECONDS` (20 seconds, both sides UTC);
at exactly the threshold the device is offline, one millisecond before it is
online. -/
theorem C3_presence_threshold (db : DB) (now t : Rat) :
    (∀ r ∈ get_devices db now, ∃ d ∈ db.devices,
        r.device_id = d.device_id ∧ r.is_online = is_online d.last_seen now) ∧
    (is_online (some t) now = true ↔ now - t < ONLINE_THRESHOLD_SECONDS) ∧
    is_online (some t) (t + ONLINE_THRESHOLD_SECONDS) = false ∧
    is_online (some t) (t + ONLINE_THRESHOLD_SECONDS - 1/1000) = true := by
  refine ⟨?_, ?_, ?_, ?_⟩
  · intro r hr
    rw [get_devices, List.mem_map] at hr
    obtain ⟨d, hd, rfl⟩ := hr
    exact ⟨d, mem_devices_of_mem_sorted hd, rfl, rfl⟩
  · simp [is_online, last_seen_dt]
  · simp only [is_online, last_seen_dt]
    rw [decide_eq_false_iff_not]
    intro hlt
    have : t + ONLINE_THRESHOLD_SECONDS - t = ONLINE_THRESHOLD_SECONDS := by ring
    rw [this] at hlt
    exact lt_irrefl _ hlt
  · simp only [is_online, last_seen_dt]
    rw [decide_eq_true_iff]
    have : t + ONLINE_THRESHOLD_SECONDS - 1/1000 - t
        = ONLINE_THRESHOLD_SECONDS - 1/1000 := by ring
    rw [this, ONLINE_THRESHOLD_SECONDS]
    norm_num

/-- C9: a stored `last_seen` that cannot be parsed (`strptime` raises
`ValueError`) makes the presence evaluation report the device offline, and
the listing still returns every device, including that one. -/
theorem C9_malformed_last_seen_offline (db : DB) (now : Rat) :
    is_online none now = false ∧
    (get_devices db now).length = db.devices.length ∧
    ∀ d ∈ db.devices, ∃ r ∈ get_devices db now,
      r.device_id = d.device_id ∧ r.is_online = is_online d.last_seen now := by
  refine ⟨?_, ?_, ?_⟩
  · simp only [is_online, last_seen_dt]
    rw [decide_eq_false_iff_not]
    intro hlt
    have : now - (now - (ONLINE_THRESHOLD_SECONDS + 1))
        = ONLINE_THRESHOLD_SECONDS + 1 := by ring
    rw [this, ONLINE_THRESHOLD_SECONDS] at hlt
    norm_num at hlt
  · rw [get_devices, List.length_map, List.length_insertionSort]
  · intro d hd
    have hm : d ∈ db.devices.insertionSort createdLE := mem_sorted_of_mem_devices hd
    exact ⟨_, List.mem_map_of_mem _ hm, rfl, rfl⟩


/-- C4: `check_in` on an unknown `device_id` inserts exactly one row with
`created_at = last_seen = now` and the supplied metadata; on a known
`device_id` every row keeps its `id`, `device_id`, `device_name`,
`os_version`, `phone_number`, `battery_level` and `created_at`, only the
matching row's `last_seen` becomes `now`, and every other table is left
unchanged. -/
theorem C4_check_in_upsert (db : DB) (data : DeviceRegisterRequest) (now : Rat) :
    ((∀ d ∈ db.devices, d.device_id ≠ data.device_id) →
      (register_device db data now).devices =
        db.devices ++
          [{ id := db.nextDeviceId, device_id := data.device_id,
             device_name := data.device_name, os_version := data.os_version,
             phone_number := data.phone_number, battery_level := data.battery_level,
             last_seen := some now, created_at := now }]) ∧
    ((∃ d ∈ db.devices, d.device_id = data.device_id) →
      (register_device db data now).devices =
        db.devices.map (fun d =>
          { id := d.id, device_id := d.device_id, device_name := d.device_name,
            os_version := d.os_version, phone_number := d.phone_number,
            battery_level := d.battery_level,
            last_seen := if d.device_id = data.device_id then some now else d.last_seen,
            created_at := d.created_at })) ∧
    (register_device db data now).commands = db.commands ∧
    (register_device db data now).sms_logs = db.sms_logs ∧
    (register_device db data now).form_submissions = db.form_submissions ∧
    (register_device db data now).global_settings = db.global_settings := by
  by_cases hc : db.devices.any (fun d => d.device_id == data.device_id) = true
  · refine ⟨?_, ?_, ?_, ?_, ?_, ?_⟩
    · intro hno
      obtain ⟨d, hd, hdid⟩ := List.any_eq_true.mp hc
      exact absurd (eq_of_beq hdid) (hno d hd)
    · intro _
      rw [register_device, if_pos hc]
      apply List.map_congr_left
      intro d _
      by_cases hid : d.device_id = data.device_id
      · rw [if_pos hid, if_pos hid]
      · rw [if_neg hid, if_neg hid]
    all_goals rw [register_device, if_pos hc]
  · refine ⟨?_, ?_, ?_, ?_, ?_, ?_⟩
    · intro _
      rw [register_device, if_neg hc]
    · intro hex
      obtain ⟨d, hd, hdid⟩ := hex
      exact absurd (List.any_eq_true.mpr ⟨d, hd, by simp [hdid]⟩) hc
    all_goals rw [register_device, if_neg hc]


lemma mem_select_pending {db : DB} {dev : String} {c : CommandRow} :
    c ∈ select_pending db dev ↔
      c ∈ db.commands ∧ c.device_id = dev ∧ c.status = CommandStatus.pending := by
  rw [select_pending, List.mem_filter]
  simp only [decide_eq_true_iff]

lemma mark_sent_nil (db : DB) : mark_sent db [] = db := by
  show ({ db with commands := db.commands.map _ } : DB) = db
  have h : db.commands.map (fun c => if c.id ∈ ([] : List Nat)
      then { c with status := CommandStatus.sent } else c) = db.commands :=
    (List.map_congr_left (fun c _ => if_neg (List.not_mem_nil c.id))).trans
      (List.map_id db.commands)
  rw [h]

lemma get_pending_fst (db : DB) (dev : String) :
    (get_pending_commands db dev).1 =
      (select_pending db dev).map (fun c =>
        { id := c.id, command_type := c.command_type,
          command_data := c.command_data : DeliveredCommand }) := by
  simp only [get_pending_commands]
  split <;> rfl

lemma get_pending_snd (db : DB) (dev : String) :
    (get_pending_commands db dev).2 =
      mark_sent db ((select_pending db dev).map (fun c => c.id)) := by
  simp only [get_pending_commands]
  split
  next h => rw [h, mark_sent_nil]
  next h => rfl

/-- The commands table after `get_pending_commands`, as one map: rows whose
id was captured by the SELECT are flipped to `sent`, the rest untouched. -/
lemma commands_after_deliver (db : DB) (dev : String) :
    (get_pending_commands db dev).2.commands =
      db.commands.map (fun c =>
        if c.id ∈ (select_pending db dev).map (fun x => x.id)
        then { c with status := CommandStatus.sent } else c) := by
  rw [get_pending_snd]
  rfl

lemma no_pending_after_deliver (db : DB) (dev : String) :
    ∀ c ∈ (get_pending_commands db dev).2.commands,
      c.device_id = dev → c.status ≠ CommandStatus.pending := by
  intro c hc hdev hpend
  rw [commands_after_deliver, List.mem_map] at hc
  obtain ⟨a, ha, hac⟩ := hc
  by_cases hm : a.id ∈ (select_pending db dev).map (fun x => x.id)
  · rw [if_pos hm] at hac
    rw [← hac] at hpend
    exact CommandStatus.noConfusion hpend
  · rw [if_neg hm] at hac
    subst hac
    exact hm (List.mem_map_of_mem _ (mem_select_pending.mpr ⟨ha, hdev, hpend⟩))

lemma select_pending_after_deliver (db : DB) (dev : String) :
    select_pending (get_pending_commands db dev).2 dev = [] := by
  rw [select_pending, List.filter_eq_nil_iff]
  intro c hc
  simp only [decide_eq_true_iff, not_and]
  exact fun hdev => no_pending_after_deliver db dev c hc hdev

/-- C2: delivering twice in immediate succession returns every pending
command of the device (id, type and structured payload) on the first call
and nothing on the second; afterwards every captured command is `sent`, no
command of the device is still `pending`, the second call writes nothing,
and with no pending commands the first call writes nothing either. -/
theorem C2_deliver_twice (db : DB) (dev : String) :
    (get_pending_commands db dev).1 =
      (select_pending db dev).map (fun c =>
        { id := c.id, command_type := c.command_type,
          command_data := c.command_data : DeliveredCommand }) ∧
    (get_pending_commands (get_pending_commands db dev).2 dev).1 = [] ∧
    (get_pending_commands (get_pending_commands db dev).2 dev).2 =
      (get_pending_commands db dev).2 ∧
    (∀ c ∈ (get_pending_commands db dev).2.commands,
      c.id ∈ (select_pending db dev).map (fun x => x.id) →
        c.status = CommandStatus.sent) ∧
    (∀ c ∈ (get_pending_commands db dev).2.commands,
      c.device_id = dev → c.status ≠ CommandStatus.pending) ∧
    (select_pending db dev = [] → (get_pending_commands db dev).2 = db) := by
  refine ⟨get_pending_fst db dev, ?_, ?_, ?_, no_pending_after_deliver db dev, ?_⟩
  · rw [get_pending_fst, select_pending_after_deliver]
    rfl
  · rw [get_pending_snd ((get_pending_commands db dev).2) dev,
      select_pending_after_deliver, List.map_nil, mark_sent_nil]
  · intro c hc hm
    rw [commands_after_deliver, List.mem_map] at hc
    obtain ⟨a, ha, hac⟩ := hc
    by_cases ham : a.id ∈ (select_pending db dev).map (fun x => x.id)
    · rw [if_pos ham] at hac
      rw [← hac]
    · rw [if_neg ham] at hac
      subst hac
      exact absurd hm ham
  · intro hnil
    rw [get_pending_snd, hnil, List.map_nil, mark_sent_nil]

/-- C8: `confirm_executed` reports success and sets the command to
`executed` whatever its current state (a `pending` command goes straight to
`executed`); repeating it changes nothing more, and every other command row
is untouched. -/
theorem C8_confirm_unconditional_idempotent (db : DB) (cid : Nat) :
    (mark_command_executed db cid).1 = ApiStatus.success ∧
    (mark_command_executed (mark_command_executed db cid).2 cid).1 = ApiStatus.success ∧
    (mark_command_executed (mark_command_executed db cid).2 cid).2 =
      (mark_command_executed db cid).2 ∧
    (∀ c ∈ (mark_command_executed db cid).2.commands,
      c.id = cid → c.status = CommandStatus.executed) ∧
    (∀ c ∈ db.commands, c.id ≠ cid → c ∈ (mark_command_executed db cid).2.commands) := by
  refine ⟨rfl, rfl, ?_, ?_, ?_⟩
  · show ({ db with commands := (db.commands.map _).map _ } : DB) = _
    rw [List.map_map]
    congr 1
    apply List.map_congr_left
    intro c _
    by_cases h : c.id = cid
    · simp only [Function.comp_apply, if_pos h]
    · simp only [Function.comp_apply, if_neg h]
  · intro c hc hid
    rw [show (mark_command_executed db cid).2.commands
        = db.commands.map (fun c => if c.id = cid
            then { c with status := CommandStatus.executed } else c) from rfl,
      List.mem_map] at hc
    obtain ⟨a, _, hac⟩ := hc
    by_cases h : a.id = cid
    · rw [if_pos h] at hac
      rw [← hac]
    · rw [if_neg h] at hac
      subst hac
      exact absurd hid h
  · intro c hc hne
    have h : (fun c => if c.id = cid
        then { c with status := CommandStatus.executed } else c) c = c := if_neg hne
    rw [show (mark_command_executed db cid).2.commands
        = db.commands.map (fun c => if c.id = cid
            then { c with status := CommandStatus.executed } else c) from rfl,
      List.mem_map]
    exact ⟨c, hc, h⟩

/-- C5 counterexample: on a store with no command of id 999,
`confirm_executed 999` reports success, not NotFound, contradicting the
claim that a missing `command_id` is reported as NotFound. -/
theorem C5_counterexample_success_on_missing_id :
    (∀ c ∈ emptyDB.commands, c.id ≠ 999) ∧
    (mark_command_executed emptyDB 999).1 = ApiStatus.success ∧
    ¬(mark_command_executed emptyDB 999).1 = ApiStatus.notFound := by
  refine ⟨?_, rfl, ?_⟩
  · intro c hc
    exact absurd hc (List.not_mem_nil c)
  · intro h
    exact ApiStatus.noConfusion h

/-- C5 amended: `confirm_executed` reports success for every `command_id`,
also when no such command exists; in that case it performs no write. -/
theorem C5_amended_always_success (db : DB) (cid : Nat) :
    (mark_command_executed db cid).1 = ApiStatus.success ∧
    ((∀ c ∈ db.commands, c.id ≠ cid) → (mark_command_executed db cid).2 = db) := by
  refine ⟨rfl, ?_⟩
  intro hno
  show ({ db with commands := db.commands.map _ } : DB) = db
  have h : db.commands.map (fun c => if c.id = cid
      then { c with status := CommandStatus.executed } else c) = db.commands := by
    refine (List.map_congr_left ?_).trans (List.map_id db.commands)
    intro c hc
    exact if_neg (hno c hc)
  rw [h]


/-- C6: deleting an existing device reports success and removes its Device
row and every command, SMS log and form submission carrying its
`device_id`, keeping every record of another device and the settings table;
deleting an unknown `device_id` reports NotFound and changes nothing. -/
theorem C6_delete_device_cascade (db : DB) (dev : String) :
    ((∃ d ∈ db.devices, d.device_id = dev) →
      (delete_device db dev).1 = ApiStatus.success ∧
      (∀ d ∈ (delete_device db dev).2.devices, d.device_id ≠ dev) ∧
      (∀ c ∈ (delete_device db dev).2.commands, c.device_id ≠ dev) ∧
      (∀ s ∈ (delete_device db dev).2.sms_logs, s.device_id ≠ dev) ∧
      (∀ f ∈ (delete_device db dev).2.form_submissions, f.device_id ≠ dev) ∧
      (∀ d ∈ db.devices, d.device_id ≠ dev → d ∈ (delete_device db dev).2.devices) ∧
      (∀ c ∈ db.commands, c.device_id ≠ dev → c ∈ (delete_device db dev).2.commands) ∧
      (∀ s ∈ db.sms_logs, s.device_id ≠ dev → s ∈ (delete_device db dev).2.sms_logs) ∧
      (∀ f ∈ db.form_submissions, f.device_id ≠ dev →
        f ∈ (delete_device db dev).2.form_submissions) ∧
      (delete_device db dev).2.global_settings = db.global_settings) ∧
    ((∀ d ∈ db.devices, d.device_id ≠ dev) →
      (delete_device db dev).1 = ApiStatus.notFound ∧ (delete_device db dev).2 = db) := by
  by_cases hzero : db.devices.countP (fun d => d.device_id == dev) = 0
  · have hnone : ∀ d ∈ db.devices, d.device_id ≠ dev := by
      intro d hd heq
      have := List.countP_eq_zero.mp hzero d hd
      simp [heq] at this
    constructor
    · intro hex
      obtain ⟨d, hd, hdid⟩ := hex
      exact absurd hdid (hnone d hd)
    · intro _
      rw [delete_device, if_pos hzero]
      exact ⟨rfl, rfl⟩
  · have hdel : delete_device db dev =
        (ApiStatus.success,
         { db with
           devices := db.devices.filter (fun d => !(d.device_id == dev)),
           sms_logs := db.sms_logs.filter (fun r => !(r.device_id == dev)),
           form_submissions :=
             db.form_submissions.filter (fun r => !(r.device_id == dev)),
           commands := db.commands.filter (fun c => !(c.device_id == dev)) }) := by
      rw [delete_device, if_neg hzero]
    constructor
    · intro _
      rw [hdel]
      refine ⟨rfl, ?_, ?_, ?_, ?_, ?_, ?_, ?_, ?_, rfl⟩ <;>
        first
        | · intro x hx heq
            have hb := (List.mem_filter.mp hx).2
            simp [heq] at hb
        | · intro x hx hne
            refine List.mem_filter.mpr ⟨hx, ?_⟩
            simpa using hne
    · intro hnone
      exfalso
      apply hzero
      rw [List.countP_eq_zero]
      intro d hd
      simpa using hnone d hd

/-- The two overlapping `get_pending_commands` requests of the race: each
request's SELECT runs before either request's UPDATE commits (the two SQL
statements run on separate connections with the commit only after the
UPDATE, so SQLite admits the schedule select_A, select_B, update_A,
update_B).  Returns what request A returns, what request B returns, and the
store after both UPDATEs. -/
def race_schedule (db : DB) (dev : String) :
    List DeliveredCommand × List DeliveredCommand × DB :=
  let selA := select_pending db dev
  let selB := select_pending db dev
  let dbA := mark_sent db (selA.map (fun c => c.id))
  let dbB := mark_sent dbA (selB.map (fun c => c.id))
  ((selA.map (fun c =>
      { id := c.id, command_type := c.command_type,
        command_data := c.command_data : DeliveredCommand })),
   (selB.map (fun c =>
      { id := c.id, command_type := c.command_type,
        command_data := c.command_data : DeliveredCommand })),
   dbB)

/-- One pending command (id 1) queued for device-A. -/
def dbRace : DB :=
  { emptyDB with
    commands := [{ id := 1, device_id := "device-A", command_type := "ping",
                   command_data := Json.obj [], status := CommandStatus.pending,
                   created_at := 0 }],
    nextCommandId := 2 }

/-- C1: the claimed disjointness fails.  Under the interleaving
select_A, select_B, update_A, update_B of two overlapping
`get_pending_commands` calls for device-A, both calls return command 1 -
the returned sets are not disjoint and the command is delivered twice -
because the SELECT and the UPDATE are two separate statements, not one
atomic conditional update. -/
theorem C1_race_double_delivery :
    ((race_schedule dbRace "device-A").1.map (fun c => c.id) = [1]) ∧
    ((race_schedule dbRace "device-A").2.1.map (fun c => c.id) = [1]) ∧
    ¬(∀ i ∈ (race_schedule dbRace "device-A").1.map (fun c => c.id),
        i ∉ (race_schedule dbRace "device-A").2.1.map (fun c => c.id)) ∧
    (get_pending_commands dbRace "device-A").1 = (race_schedule dbRace "device-A").1 ∧
    (∀ c ∈ (race_schedule dbRace "device-A").2.2.commands,
      c.status = CommandStatus.sent) := by
  refine ⟨rfl, rfl, ?_, ?_, ?_⟩
  · intro hdisj
    exact hdisj 1 (by decide) (by decide)
  · rw [get_pending_fst]
    rfl
  · intro c hc
    have : (race_schedule dbRace "device-A").2.2.commands =
        [{ id := 1, device_id := "device-A", command_type := "ping",
           command_data := Json.obj [], status := CommandStatus.sent,
           created_at := 0 }] := rfl
    rw [this, List.mem_singleton] at hc
    rw [hc]


lemma statusRank_le_two (s : CommandStatus) : statusRank s ≤ 2 := by
  cases s <;> simp [statusRank]

lemma command_id_inj {l : List CommandRow}
    (hp : l.Pairwise (fun a b => a.id ≠ b.id)) :
    ∀ a ∈ l, ∀ b ∈ l, a.id = b.id → a = b := by
  induction l with
  | nil => intro a ha; exact absurd ha (List.not_mem_nil a)
  | cons x xs ih =>
    obtain ⟨hx, hxs⟩ := List.pairwise_cons.mp hp
    intro a ha b hb hab
    rcases List.mem_cons.mp ha with rfl | ha2
    · rcases List.mem_cons.mp hb with rfl | hb2
      · rfl
      · exact absurd hab (hx b hb2)
    · rcases List.mem_cons.mp hb with rfl | hb2
      · exact absurd hab.symm (hx a ha2)
      · exact ih hxs a ha2 b hb2 hab

lemma cmdIdsWf_map_commands {db : DB} {f : CommandRow → CommandRow}
    (hf : ∀ c, (f c).id = c.id) (h : CmdIdsWf db) :
    CmdIdsWf { db with commands := db.commands.map f } := by
  obtain ⟨hp, hb⟩ := h
  constructor
  · rw [List.pairwise_map]
    refine hp.imp ?_
    intro a b hab
    rw [hf a, hf b]
    exact hab
  · intro c hc
    rw [List.mem_map] at hc
    obtain ⟨a, ha, rfl⟩ := hc
    rw [hf a]
    exact hb a ha

lemma cmdIdsWf_apply_op {db : DB} (op : DispatchOp) (h : CmdIdsWf db) :
    CmdIdsWf (apply_op db op) := by
  obtain ⟨hp, hb⟩ := h
  cases op with
  | enqueue data now =>
    have hcmds : (apply_op db (DispatchOp.enqueue data now)).commands =
        db.commands ++
          [{ id := db.nextCommandId, device_id := data.device_id,
             command_type := data.command_type, command_data := data.command_data,
             status := CommandStatus.pending, created_at := now }] := rfl
    have hnext : (apply_op db (DispatchOp.enqueue data now)).nextCommandId =
        db.nextCommandId + 1 := rfl
    constructor
    · rw [hcmds, List.pairwise_append]
      refine ⟨hp, List.pairwise_singleton _ _, ?_⟩
      intro a ha b hbm
      rw [List.mem_singleton] at hbm
      subst hbm
      exact Nat.ne_of_lt (hb a ha)
    · intro c hc
      rw [hcmds] at hc
      rw [hnext]
      rcases List.mem_append.mp hc with hc | hc
      · exact Nat.lt_succ_of_lt (hb c hc)
      · rw [List.mem_singleton] at hc
        subst hc
        exact Nat.lt_succ_self _
  | deliver dev =>
    have := @cmdIdsWf_map_commands db
      (fun c => if c.id ∈ (select_pending db dev).map (fun x => x.id)
        then { c with status := CommandStatus.sent } else c)
      (by intro c; by_cases hm : c.id ∈ (select_pending db dev).map (fun x => x.id) <;>
        simp [hm]) ⟨hp, hb⟩
    show CmdIdsWf (get_pending_commands db dev).2
    rw [get_pending_snd]
    exact this
  | confirm cid =>
    exact cmdIdsWf_map_commands
      (by intro c; by_cases hm : c.id = cid <;> simp [hm]) ⟨hp, hb⟩

lemma status_mono_apply_op {db : DB} (op : DispatchOp) (h : CmdIdsWf db) :
    ∀ c ∈ db.commands, ∃ c2 ∈ (apply_op db op).commands,
      c2.id = c.id ∧ statusRank c.status ≤ statusRank c2.status := by
  intro c hc
  cases op with
  | enqueue data now =>
    refine ⟨c, ?_, rfl, le_refl _⟩
    show c ∈ db.commands ++ _
    exact List.mem_append_left _ hc
  | deliver dev =>
    rw [show (apply_op db (DispatchOp.deliver dev)).commands
        = (get_pending_commands db dev).2.commands from rfl,
      commands_after_deliver]
    refine ⟨_, List.mem_map_of_mem _ hc, ?_⟩
    by_cases hm : c.id ∈ (select_pending db dev).map (fun x => x.id)
    · rw [if_pos hm]
      refine ⟨rfl, ?_⟩
      rw [List.mem_map] at hm
      obtain ⟨a, ha, haid⟩ := hm
      have := command_id_inj h.1 a (mem_select_pending.mp ha).1 c hc haid
      subst this
      rw [(mem_select_pending.mp ha).2.2]
      simp [statusRank]
    · rw [if_neg hm]
      exact ⟨rfl, le_refl _⟩
  | confirm cid =>
    refine ⟨_, List.mem_map_of_mem _ hc, ?_⟩
    by_cases hm : c.id = cid
    · rw [if_pos hm]
      exact ⟨rfl, statusRank_le_two c.status⟩
    · rw [if_neg hm]
      exact ⟨rfl, le_refl _⟩

/-- C7: with the ids kept unique by the PRIMARY KEY, every sequence of
dispatcher operations (enqueue, deliver, confirm, one at a time) moves each
command's status only forward in the order pending < sent < executed:
deliver flips only pending rows to sent, confirm only raises a row to the
terminal executed, and no row ever moves back. -/
theorem C7_status_monotone (db : DB) (ops : List DispatchOp) (h : CmdIdsWf db) :
    ∀ c ∈ db.commands, ∃ c2 ∈ (apply_ops db ops).commands,
      c2.id = c.id ∧ statusRank c.status ≤ statusRank c2.status := by
  induction ops generalizing db with
  | nil =>
    intro c hc
    exact ⟨c, hc, rfl, le_refl _⟩
  | cons op rest ih =>
    intro c hc
    obtain ⟨c2, hc2, hid, hrank⟩ := status_mono_apply_op op h c hc
    obtain ⟨c3, hc3, hid2, hrank2⟩ := ih (apply_op db op) (cmdIdsWf_apply_op op h) c2 hc2
    exact ⟨c3, hc3, hid2.trans hid, hrank.trans hrank2⟩

/-- A pending command for the C7 witness store. -/
def cmdW : CommandRow :=
  { id := 1, device_id := "d", command_type := "ping", command_data := Json.null,
    status := CommandStatus.pending, created_at := 0 }

/-- The C7 witness store: one pending command, counter past its id. -/
def dbW7 : DB := { emptyDB with commands := [cmdW], nextCommandId := 2 }

theorem C7_status_monotone_witness :
    ∃ c2 ∈ (apply_ops dbW7 [DispatchOp.deliver "d", DispatchOp.confirm 1]).commands,
      c2.id = cmdW.id ∧ statusRank cmdW.status ≤ statusRank c2.status :=
  C7_status_monotone dbW7 [DispatchOp.deliver "d", DispatchOp.confirm 1]
    ⟨List.pairwise_singleton _ _, by
      intro c hc
      rw [show dbW7.commands = [cmdW] from rfl, List.mem_singleton] at hc
      subst hc
      show cmdW.id < 2
      decide⟩
    cmdW (by rw [show dbW7.commands = [cmdW] from rfl, List.mem_singleton])


/-- The first real check-in used to exhibit the C10 listing order. -/
def realCheckIn : DeviceRegisterRequest :=
  { device_id := "real-device", device_name := some "Real Phone",
    os_version := none, phone_number := none, battery_level := none }

/-- C10: on an empty devices table, initialization inserts exactly one demo
Device (`demo-device-12345`, preset metadata, `last_seen = created_at` = the
initialization time); a first real check-in performed later is therefore
listed after a device that never checked in. -/
theorem C10_demo_seed (db : DB) (now t u : Rat) (h : db.devices = [])
    (hlt : now < t) :
    (init_db db now).devices = [demo_device now db.nextDeviceId] ∧
    (demo_device now db.nextDeviceId).device_id = "demo-device-12345" ∧
    (demo_device now db.nextDeviceId).device_name = some "Test Device (Demo)" ∧
    (demo_device now db.nextDeviceId).os_version = some "Android 14" ∧
    (demo_device now db.nextDeviceId).phone_number = some "+919999999999" ∧
    (demo_device now db.nextDeviceId).battery_level = some 95 ∧
    (demo_device now db.nextDeviceId).last_seen = some now ∧
    (demo_device now db.nextDeviceId).created_at = now ∧
    ((get_devices (register_device (init_db db now) realCheckIn t) u).map
        (fun r => r.device_id)) = ["demo-device-12345", "real-device"] := by
  have hinit : (init_db db now).devices = [demo_device now db.nextDeviceId] := by
    rw [init_db, if_pos (by rw [h]; rfl), h]
    rfl
  refine ⟨hinit, rfl, rfl, rfl, rfl, rfl, rfl, rfl, ?_⟩
  have hany : ((init_db db now).devices.any
      (fun d => d.device_id == realCheckIn.device_id)) = false := by
    rw [hinit]
    rfl
  have hreg : (register_device (init_db db now) realCheckIn t).devices =
      [demo_device now db.nextDeviceId,
       { id := (init_db db now).nextDeviceId, device_id := realCheckIn.device_id,
         device_name := realCheckIn.device_name, os_version := realCheckIn.os_version,
         phone_number := realCheckIn.phone_number,
         battery_level := realCheckIn.battery_level,
         last_seen := some t, created_at := t }] := by
    rw [register_device, if_neg (by rw [hany]; exact Bool.false_ne_true), hinit]
    rfl
  rw [get_devices, hreg]
  rw [show List.insertionSort createdLE
      [demo_device now db.nextDeviceId,
       { id := (init_db db now).nextDeviceId, device_id := realCheckIn.device_id,
         device_name := realCheckIn.device_name, os_version := realCheckIn.os_version,
         phone_number := realCheckIn.phone_number,
         battery_level := realCheckIn.battery_level,
         last_seen := some t, created_at := t }]
    = List.orderedInsert createdLE (demo_device now db.nextDeviceId)
       [{ id := (init_db db now).nextDeviceId, device_id := realCheckIn.device_id,
          device_name := realCheckIn.device_name, os_version := realCheckIn.os_version,
          phone_number := realCheckIn.phone_number,
          battery_level := realCheckIn.battery_level,
          last_seen := some t, created_at := t }] from rfl]
  rw [List.orderedInsert]
  have hcle : createdLE (demo_device now db.nextDeviceId)
      { id := (init_db db now).nextDeviceId, device_id := realCheckIn.device_id,
        device_name := realCheckIn.device_name, os_version := realCheckIn.os_version,
        phone_number := realCheckIn.phone_number,
        battery_level := realCheckIn.battery_level,
        last_seen := some t, created_at := t } := le_of_lt hlt
  rw [if_pos hcle]
  rfl

theorem C10_demo_seed_witness :
    (init_db emptyDB 0).devices = [demo_device 0 emptyDB.nextDeviceId] ∧
    (demo_device 0 emptyDB.nextDeviceId).device_id = "demo-device-12345" ∧
    (demo_device 0 emptyDB.nextDeviceId).device_name = some "Test Device (Demo)" ∧
    (demo_device 0 emptyDB.nextDeviceId).os_version = some "Android 14" ∧
    (demo_device 0 emptyDB.nextDeviceId).phone_number = some "+919999999999" ∧
    (demo_device 0 emptyDB.nextDeviceId).battery_level = some 95 ∧
    (demo_device 0 emptyDB.nextDeviceId).last_seen = some 0 ∧
    (demo_device 0 emptyDB.nextDeviceId).created_at = 0 ∧
    ((get_devices (register_device (init_db emptyDB 0) realCheckIn 5) 6).map
        (fun r => r.device_id)) = ["demo-device-12345", "real-device"] :=
  C10_demo_seed emptyDB 0 5 6 rfl (by norm_num)

end RMS
